import Mathlib

/-!
# Weather service: forecast selection, temperature classes and the /weather handler

A shallow embedding of `pkg/weather/service.go`, the types of
`pkg/weather/client.go` and `Server.weatherHandler` of `cmd/server/main.go`.

* Go `int` values are `Int` (only comparisons with constants are performed).
* Go `string` values are `String`, a sequence of runes: the strings reaching the
  code come out of the JSON decoder and the URL parser. Go `error` values are
  their messages.
* `float64` values are modelled by `Float64` below: NaN, the infinities, and the
  finite values by the rational they denote, which is exact for the
  comparisons the code performs (every float64 is such a value; the statements
  quantify over all of them).
* The two HTTP calls of the client are given functions (`Client`); every run
  records the calls it performs, in order.
* Functions of the Go standard library whose results the code consumes
  (`strconv.ParseFloat`, the case table behind `unicode.ToLower`, the `%.4f`
  verb of `fmt`, the JSON encoder) are fields of `Lib`: the theorems hold for
  every choice of them.
-/

namespace WeatherService

/-! ## float64 -/

/-- A float64 value: not-a-number, one of the two infinities, or a finite value
given by the rational number it denotes (the two signed zeros compare equal and
are identified). -/
inductive Float64 where
  | nan
  | posInf
  | negInf
  | finite (q : ℚ)
  deriving DecidableEq

namespace Float64

/-- The `<` of float64: false as soon as one side is NaN. -/
def lt : Float64 → Float64 → Bool
  | nan, _ => false
  | _, nan => false
  | posInf, _ => false
  | negInf, negInf => false
  | negInf, _ => true
  | finite _, negInf => false
  | finite _, posInf => true
  | finite a, finite b => decide (a < b)

/-- The `>` of float64. -/
def gt (x y : Float64) : Bool := lt y x

/-- Membership in the closed interval of real numbers from `lo` to `hi`: only a
finite value can be a member. -/
def inClosed (lo hi : ℚ) : Float64 → Prop
  | finite q => lo ≤ q ∧ q ≤ hi
  | _ => False

instance (lo hi : ℚ) (x : Float64) : Decidable (inClosed lo hi x) := by
  cases x <;> unfold inClosed <;> infer_instance

end Float64

/-! ## pkg/weather/client.go: types -/

/-- The `Properties` of a `GridResponse`. -/
structure GridProperties where
  GridID : String
  GridX : Int
  GridY : Int
  deriving DecidableEq, Repr

/-- Response of the points lookup. -/
structure GridResponse where
  Properties : GridProperties
  deriving DecidableEq, Repr

/-- A forecast period. -/
structure Period where
  Name : String
  Temperature : Int
  ShortForecast : String
  IsDaytime : Bool
  deriving DecidableEq, Repr

/-- The `Properties` of a `ForecastResponse`. -/
structure ForecastProperties where
  Periods : List Period
  deriving DecidableEq, Repr

/-- Response of the gridpoint forecast lookup. -/
structure ForecastResponse where
  Properties : ForecastProperties
  deriving DecidableEq, Repr

/-- The client: its two lookups, each an HTTP GET in the source, as functions
from the arguments to the decoded response or the error. -/
structure Client where
  GetGridCoordinates : Float64 → Float64 → Except String GridResponse
  GetForecast : String → Int → Int → Except String ForecastResponse

/-- One call of a client method, with its arguments. -/
inductive ClientCall where
  | GetGridCoordinates (lat lng : Float64)
  | GetForecast (gridID : String) (gridX gridY : Int)
  deriving DecidableEq

/-! ## pkg/weather/service.go: types and constants -/

/-- The API response structure. -/
structure Response where
  Forecast : String
  Temperature : String
  Location : String
  deriving DecidableEq, Repr

/-- Temperature classification: a string type in the source. -/
abbrev TemperatureCategory := String

def Hot : TemperatureCategory := "hot"
def Cold : TemperatureCategory := "cold"
def Moderate : TemperatureCategory := "moderate"

def HotThreshold : Int := 80
def ColdThreshold : Int := 50

/-- The weather service. -/
structure Service where
  client : Client

/-! ## Standard library functions the code calls -/

/-- Results of the Go standard library that the code consumes. -/
structure Lib where
  /-- Stands for `strconv.ParseFloat(s, 64)`. -/
  ParseFloat : String → Except String Float64
  /-- Stands for `unicode.ToLower` on the runes above ASCII. -/
  lowerAboveASCII : Char → Char
  /-- Stands for `fmt.Sprintf` with the verb `%.4f` of one float64. -/
  formatFixed4 : Float64 → String
  /-- Stands for `json.NewEncoder(w).Encode` of a `Response`: the bytes written,
  or the error. -/
  jsonEncode : Response → Except String String

namespace unicode

/-- The `unicode.ToLower` of a rune: ASCII letters by offset, the other runes by
the case table. -/
def ToLower (lib : Lib) (r : Char) : Char :=
  if r.val ≤ 127 then
    if 'A' ≤ r ∧ r ≤ 'Z' then Char.ofNat (r.toNat + ('a'.toNat - 'A'.toNat)) else r
  else lib.lowerAboveASCII r

end unicode

namespace strings

/-- The `strings.ToLower`: every rune mapped to lower case. -/
def ToLower (lib : Lib) (s : String) : String :=
  String.mk (s.data.map (unicode.ToLower lib))

/-- Whether `sub` is an initial segment of `s`. -/
def startsWith : List Char → List Char → Bool
  | _, [] => true
  | [], _ :: _ => false
  | c :: cs, d :: ds => c == d && startsWith cs ds

/-- Whether `sub` occurs in `s` at some position. -/
def occursIn : List Char → List Char → Bool
  | [], sub => startsWith [] sub
  | c :: cs, sub => startsWith (c :: cs) sub || occursIn cs sub

/-- The `strings.Contains`: whether `substr` is within `s`. -/
def Contains (s substr : String) : Bool :=
  occursIn s.data substr.data

end strings

/-! ## pkg/weather/service.go: functions -/

/-- Categorizes temperature as hot, cold, or moderate. -/
def Service.categorizeTemperature (_s : Service) (tempF : Int) : TemperatureCategory :=
  if tempF ≥ HotThreshold then Hot
  else if tempF ≤ ColdThreshold then Cold
  else Moderate

/-- Finds the most appropriate period representing "today". -/
def Service.findTodaysPeriod (lib : Lib) (_s : Service) (periods : List Period) :
    Except String Period :=
  match periods with
  | [] => .error "no forecast periods found"
  | first :: rest =>
    let period := first
    let period :=
      if !period.IsDaytime && decide ((first :: rest).length > 1) then
        match rest with
        | second :: _ =>
          if strings.Contains (strings.ToLower lib second.Name) "today" then second
          else period
        | [] => period
      else period
    .ok period

/-- Retrieves the weather forecast for given coordinates: the result, and the
client calls performed, in order. -/
def Service.GetForecast (lib : Lib) (s : Service) (lat lng : Float64) :
    Except String Response × List ClientCall :=
  match s.client.GetGridCoordinates lat lng with
  | .error err =>
    (.error ("failed to get grid coordinates: " ++ err),
      [ClientCall.GetGridCoordinates lat lng])
  | .ok gridResp =>
    let calls := [ClientCall.GetGridCoordinates lat lng,
      ClientCall.GetForecast gridResp.Properties.GridID gridResp.Properties.GridX
        gridResp.Properties.GridY]
    match s.client.GetForecast gridResp.Properties.GridID gridResp.Properties.GridX
        gridResp.Properties.GridY with
    | .error err => (.error ("failed to get forecast: " ++ err), calls)
    | .ok forecastResp =>
      match s.findTodaysPeriod lib forecastResp.Properties.Periods with
      | .error err => (.error err, calls)
      | .ok period =>
        let tempCategory := s.categorizeTemperature period.Temperature
        (.ok
          { Forecast := period.ShortForecast
            Temperature := tempCategory
            Location := lib.formatFixed4 lat ++ ", " ++ lib.formatFixed4 lng },
          calls)

/-! ## cmd/server/main.go -/

namespace http

def MethodGet : String := "GET"
def StatusOK : Nat := 200
def StatusBadRequest : Nat := 400
def StatusMethodNotAllowed : Nat := 405
def StatusInternalServerError : Nat := 500

end http

/-- An incoming request, as far as the handler reads it: the method, and the
parsed query `r.URL.Query()` as its key/value pairs in order of appearance. -/
structure Request where
  Method : String
  Query : List (String × String)

/-- The `Get` of `url.Values`: the first value associated with the key, or the
empty string when there is none. -/
def Request.QueryGet (r : Request) (key : String) : String :=
  match r.Query.find? (fun kv => kv.1 == key) with
  | some kv => kv.2
  | none => ""

/-- What one run of a handler produces: the response as written (status code,
content type, body), the lines logged, the calls of the forecast service with
their arguments, and the client calls those performed. -/
structure Exchange where
  Code : Nat
  ContentType : String
  Body : String
  logged : List String
  serviceCalls : List (Float64 × Float64)
  clientCalls : List ClientCall

/-- The `http.Error`: replies with the message as plain text, followed by a
newline, and the given code. No service call has been made where the handler
uses it before the call; the caller adds its own record otherwise. -/
def http.Error (error : String) (code : Nat) : Exchange :=
  { Code := code
    ContentType := "text/plain; charset=utf-8"
    Body := error ++ "\n"
    logged := []
    serviceCalls := []
    clientCalls := [] }

/-- The HTTP server. -/
structure Server where
  weatherService : Service

/-- Handles the /weather endpoint. -/
def Server.weatherHandler (lib : Lib) (s : Server) (r : Request) : Exchange :=
  if r.Method != http.MethodGet then
    http.Error "Method not allowed" http.StatusMethodNotAllowed
  else
    let latStr := r.QueryGet "lat"
    let lngStr := r.QueryGet "lng"
    if latStr == "" || lngStr == "" then
      http.Error "Missing required parameters: lat and lng" http.StatusBadRequest
    else
      match lib.ParseFloat latStr with
      | .error _ => http.Error "Invalid latitude parameter" http.StatusBadRequest
      | .ok lat =>
        match lib.ParseFloat lngStr with
        | .error _ => http.Error "Invalid longitude parameter" http.StatusBadRequest
        | .ok lng =>
          if Float64.lt lat (.finite (-90)) || Float64.gt lat (.finite 90)
              || Float64.lt lng (.finite (-180)) || Float64.gt lng (.finite 180) then
            http.Error "Invalid coordinate ranges" http.StatusBadRequest
          else
            match s.weatherService.GetForecast lib lat lng with
            | (.error err, calls) =>
              { http.Error "Failed to get weather forecast" http.StatusInternalServerError with
                logged := ["Error getting weather: " ++ err]
                serviceCalls := [(lat, lng)]
                clientCalls := calls }
            | (.ok weatherData, calls) =>
              match lib.jsonEncode weatherData with
              | .error err =>
                { http.Error "Internal server error" http.StatusInternalServerError with
                  logged := ["Error encoding response: " ++ err]
                  serviceCalls := [(lat, lng)]
                  clientCalls := calls }
              | .ok body =>
                { Code := http.StatusOK
                  ContentType := "application/json"
                  Body := body
                  logged := []
                  serviceCalls := [(lat, lng)]
                  clientCalls := calls }

/-! ## Concrete inputs -/

/-- The results of `strconv.ParseFloat(s, 64)` on the strings used as concrete
inputs below, as the Go documentation gives them: "NaN" is the not-a-number
value and "Inf" the positive infinity, both without error; "0x1p4" is a
hexadecimal floating-point literal, 1 times 2 to the 4th; the decimal literals
denote values float64 holds exactly; "invalid" is a syntax error. The other
strings are not used; this table answers them with a syntax error too. -/
def sampleParseFloat (s : String) : Except String Float64 :=
  if s = "NaN" then .ok .nan
  else if s = "Inf" then .ok .posInf
  else if s = "0x1p4" then .ok (.finite 16)
  else if s = "0" then .ok (.finite 0)
  else if s = "40.5" then .ok (.finite (81 / 2))
  else if s = "-74.25" then .ok (.finite (-297 / 4))
  else if s = "91" then .ok (.finite 91)
  else .error ("strconv.ParseFloat: parsing " ++ s.quote ++ ": invalid syntax")

/-- A library instance for concrete runs: `sampleParseFloat`, no case mapping
above ASCII, and placeholders for the two formatters (their output is in no
statement below). -/
def sampleLib : Lib :=
  { ParseFloat := sampleParseFloat
    lowerAboveASCII := id
    formatFixed4 := fun _ => "?"
    jsonEncode := fun resp => .ok (resp.Forecast ++ "|" ++ resp.Temperature ++ "|" ++ resp.Location) }

/-- A client whose lookups both succeed, with a night period before the day. -/
def sampleClient : Client :=
  { GetGridCoordinates := fun _ _ => .ok ⟨⟨"OKX", 33, 35⟩⟩
    GetForecast := fun _ _ _ =>
      .ok ⟨⟨[⟨"Tonight", 48, "Clear", false⟩, ⟨"Today", 85, "Sunny", true⟩]⟩⟩ }

/-- A client whose points lookup fails. -/
def failingGridClient : Client :=
  { GetGridCoordinates := fun _ _ => .error "NWS API returned status 404"
    GetForecast := fun _ _ _ => .ok ⟨⟨[]⟩⟩ }

/-- A client whose forecast has no period. -/
def emptyForecastClient : Client :=
  { GetGridCoordinates := fun _ _ => .ok ⟨⟨"OKX", 33, 35⟩⟩
    GetForecast := fun _ _ _ => .ok ⟨⟨[]⟩⟩ }

/-! ## Notions used in the statements -/

/-- A leading sign removed. -/
def dropSign : List Char → List Char
  | '+' :: cs => cs
  | '-' :: cs => cs
  | cs => cs

/-- The decimal numbers of the specification, as strings: an optional sign,
decimal digits with an optional fraction point (at least one digit in all), and
an optional decimal exponent. Written from the words "decimal number", to be
compared with what the handler accepts. -/
def specDecimalNumber (s : String) : Bool :=
  let cs := dropSign s.data
  let intPart := cs.takeWhile Char.isDigit
  let afterInt := cs.dropWhile Char.isDigit
  let fracPart := match afterInt with
    | '.' :: r => r.takeWhile Char.isDigit
    | _ => []
  let afterFrac := match afterInt with
    | '.' :: r => r.dropWhile Char.isDigit
    | r => r
  !(intPart.isEmpty && fracPart.isEmpty) &&
    match afterFrac with
    | [] => true
    | e :: r =>
      (e == 'e' || e == 'E') && !(dropSign r).isEmpty && (dropSign r).all Char.isDigit

/-- The handler's test of the coordinate ranges, as written in the source. -/
def rangeTest (lat lng : Float64) : Bool :=
  Float64.lt lat (.finite (-90)) || Float64.gt lat (.finite 90)
    || Float64.lt lng (.finite (-180)) || Float64.gt lng (.finite 180)

/-- The failures of the upstream as `Service.GetForecast` meets them at the
coordinates: the grid lookup fails, or it succeeds and the forecast lookup for
its grid fails, or both succeed and the period list is empty. -/
def upstreamFailure (c : Client) (lat lng : Float64) : Prop :=
  (∃ e, c.GetGridCoordinates lat lng = .error e) ∨
  (∃ g e, c.GetGridCoordinates lat lng = .ok g ∧
    c.GetForecast g.Properties.GridID g.Properties.GridX g.Properties.GridY = .error e) ∨
  (∃ g f, c.GetGridCoordinates lat lng = .ok g ∧
    c.GetForecast g.Properties.GridID g.Properties.GridX g.Properties.GridY = .ok f ∧
    f.Properties.Periods = [])

instance (c : Client) (lat lng : Float64) : Decidable (upstreamFailure c lat lng) := by
  unfold upstreamFailure
  cases hg : c.GetGridCoordinates lat lng with
  | error e => exact isTrue (Or.inl ⟨e, rfl⟩)
  | ok g =>
    cases hf : c.GetForecast g.Properties.GridID g.Properties.GridX g.Properties.GridY with
    | error e => exact isTrue (Or.inr (Or.inl ⟨g, e, rfl, hf⟩))
    | ok f =>
      exact decidable_of_iff (f.Properties.Periods = [])
        ⟨fun h => Or.inr (Or.inr ⟨g, f, rfl, hf, h⟩), fun h => by
          rcases h with ⟨e, he⟩ | ⟨g2, e, hg2, he⟩ | ⟨g2, f2, hg2, hf2, hp⟩
          · cases he
          · cases hg2
            rw [hf] at he
            cases he
          · cases hg2
            rw [hf] at hf2
            cases hf2
            exact hp⟩

/-! ## Lemmas on the string functions -/

theorem strings.startsWith_iff (s sub : List Char) :
    strings.startsWith s sub = true ↔ sub <+: s := by
  induction s generalizing sub with
  | nil => cases sub <;> simp [strings.startsWith]
  | cons c cs ih =>
    cases sub with
    | nil => simp [strings.startsWith]
    | cons d ds =>
      simp only [strings.startsWith, Bool.and_eq_true, beq_iff_eq, ih, List.cons_prefix_cons]
      constructor
      · rintro ⟨h, h2⟩
        exact ⟨h.symm, h2⟩
      · rintro ⟨h, h2⟩
        exact ⟨h.symm, h2⟩

/-- The model of `strings.Contains` holds exactly when the second string is a
contiguous part of the first. -/
theorem strings.Contains_iff (s substr : String) :
    strings.Contains s substr = true ↔ substr.data <:+: s.data := by
  unfold strings.Contains
  generalize s.data = l
  generalize substr.data = sub
  induction l with
  | nil =>
    simp only [strings.occursIn, strings.startsWith_iff, List.prefix_nil, List.infix_nil]
  | cons c cs ih =>
    simp only [strings.occursIn, Bool.or_eq_true, strings.startsWith_iff, ih, List.infix_cons_iff]

/-! ## Temperature classes -/

/-- C1: for every integer temperature, `categorizeTemperature` is Hot exactly
from 80 up, Cold exactly up to 50 and Moderate exactly from 51 to 79; so 80 is
Hot, 79 and 51 are Moderate, 50 is Cold. -/
theorem categorizeTemperature_thresholds (s : Service) (t : Int) :
    (s.categorizeTemperature t = Hot ↔ t ≥ 80) ∧
    (s.categorizeTemperature t = Cold ↔ t ≤ 50) ∧
    (s.categorizeTemperature t = Moderate ↔ 51 ≤ t ∧ t ≤ 79) ∧
    s.categorizeTemperature 80 = Hot ∧ s.categorizeTemperature 79 = Moderate ∧
    s.categorizeTemperature 51 = Moderate ∧ s.categorizeTemperature 50 = Cold := by
  have hc : Hot ≠ Cold := by decide
  have hm : Hot ≠ Moderate := by decide
  have cm : Cold ≠ Moderate := by decide
  refine ⟨?_, ?_, ?_, ?_, ?_, ?_, ?_⟩
  · unfold Service.categorizeTemperature HotThreshold ColdThreshold
    split_ifs with h1 h2
    · simp [h1]
    · simp only [hc.symm, false_iff]; omega
    · simp only [hm.symm, false_iff]; omega
  · unfold Service.categorizeTemperature HotThreshold ColdThreshold
    split_ifs with h1 h2
    · simp only [hc, false_iff]; omega
    · simp [h2]
    · simp only [cm.symm, false_iff]; omega
  · unfold Service.categorizeTemperature HotThreshold ColdThreshold
    split_ifs with h1 h2
    · simp only [hm, false_iff]; omega
    · simp only [cm, false_iff]; omega
    · simp only [true_iff]; omega
  · simp [Service.categorizeTemperature, HotThreshold]
  · simp [Service.categorizeTemperature, HotThreshold, ColdThreshold]
  · simp [Service.categorizeTemperature, HotThreshold, ColdThreshold]
  · simp [Service.categorizeTemperature, HotThreshold, ColdThreshold]

/-- The class of a temperature is one of the three strings. -/
theorem categorizeTemperature_mem (s : Service) (t : Int) :
    s.categorizeTemperature t = "hot" ∨ s.categorizeTemperature t = "cold" ∨
      s.categorizeTemperature t = "moderate" := by
  unfold Service.categorizeTemperature
  split_ifs
  · exact Or.inl rfl
  · exact Or.inr (Or.inl rfl)
  · exact Or.inr (Or.inr rfl)

/-! ## Selection of today's period -/

/-- C2: on a non-empty period list, `findTodaysPeriod` returns the second period
when the first is not daytime, a second exists and its lower-cased name contains
"today"; it returns the first period when the first is daytime, or there is no
second period, or the lower-cased name of the second lacks "today". -/
theorem findTodaysPeriod_selection (lib : Lib) (s : Service) (periods : List Period)
    (first : Period) (h0 : periods[0]? = some first) :
    (∀ second : Period, first.IsDaytime = false → periods[1]? = some second →
        strings.Contains (strings.ToLower lib second.Name) "today" = true →
        s.findTodaysPeriod lib periods = .ok second) ∧
    ((first.IsDaytime = true ∨ periods.length < 2 ∨
        ∃ second : Period, periods[1]? = some second ∧
          strings.Contains (strings.ToLower lib second.Name) "today" = false) →
      s.findTodaysPeriod lib periods = .ok first) := by
  cases periods with
  | nil => simp at h0
  | cons p rest =>
    simp only [List.getElem?_cons_zero, Option.some.injEq] at h0
    subst h0
    cases rest with
    | nil => simp [Service.findTodaysPeriod]
    | cons q rest2 =>
      constructor
      · intro second hd h1 hc
        simp only [List.getElem?_cons_succ, List.getElem?_cons_zero, Option.some.injEq] at h1
        subst h1
        simp [Service.findTodaysPeriod, hd, hc]
      · rintro (hd | hl | ⟨second, h1, hc⟩)
        · simp [Service.findTodaysPeriod, hd]
        · simp only [List.length_cons] at hl
          omega
        · simp only [List.getElem?_cons_succ, List.getElem?_cons_zero,
            Option.some.injEq] at h1
          subst h1
          simp [Service.findTodaysPeriod, hc]

/-- Witness of C2: a night period followed by "Today". -/
theorem findTodaysPeriod_selection_witness :
    [(⟨"Tonight", 48, "Clear", false⟩ : Period), ⟨"Today", 85, "Sunny", true⟩][0]?
        = some ⟨"Tonight", 48, "Clear", false⟩ ∧
      Service.findTodaysPeriod sampleLib ⟨sampleClient⟩
          [⟨"Tonight", 48, "Clear", false⟩, ⟨"Today", 85, "Sunny", true⟩]
        = .ok ⟨"Today", 85, "Sunny", true⟩ :=
  ⟨rfl, (findTodaysPeriod_selection sampleLib ⟨sampleClient⟩
      [⟨"Tonight", 48, "Clear", false⟩, ⟨"Today", 85, "Sunny", true⟩]
      ⟨"Tonight", 48, "Clear", false⟩ rfl).1 ⟨"Today", 85, "Sunny", true⟩ rfl rfl (by decide)⟩

/-- The two outcomes of `findTodaysPeriod`: the error on the empty list, a
period of the list otherwise. -/
theorem findTodaysPeriod_outcome (lib : Lib) (s : Service) (periods : List Period) :
    (periods = [] ∧ s.findTodaysPeriod lib periods = .error "no forecast periods found") ∨
    (periods ≠ [] ∧ ∃ p, p ∈ periods ∧ s.findTodaysPeriod lib periods = .ok p) := by
  cases periods with
  | nil => exact Or.inl ⟨rfl, rfl⟩
  | cons p rest =>
    refine Or.inr ⟨List.cons_ne_nil p rest, ?_⟩
    cases rest with
    | nil => exact ⟨p, by simp, by simp [Service.findTodaysPeriod]⟩
    | cons q rest2 =>
      by_cases h : (!p.IsDaytime && strings.Contains (strings.ToLower lib q.Name) "today") = true
      · refine ⟨q, by simp, ?_⟩
        simp only [Bool.and_eq_true, Bool.not_eq_true'] at h
        simp [Service.findTodaysPeriod, h.1, h.2]
      · refine ⟨p, by simp, ?_⟩
        simp only [Bool.and_eq_true, Bool.not_eq_true', not_and, Bool.not_eq_true] at h
        cases hd : p.IsDaytime
        · simp [Service.findTodaysPeriod, hd, h hd]
        · simp [Service.findTodaysPeriod, hd]

theorem findTodaysPeriod_error_iff (lib : Lib) (s : Service) (periods : List Period) :
    (∃ e, s.findTodaysPeriod lib periods = .error e) ↔ periods = [] := by
  rcases findTodaysPeriod_outcome lib s periods with ⟨h, he⟩ | ⟨h, p, _, hp⟩
  · exact ⟨fun _ => h, fun _ => ⟨_, he⟩⟩
  · refine ⟨?_, fun h2 => absurd h2 h⟩
    rintro ⟨e, he⟩
    rw [hp] at he
    cases he

/-- C3: `findTodaysPeriod` returns an error exactly on the empty period list,
the error being "no forecast periods found"; on every non-empty list it
succeeds and returns a period of the list. -/
theorem findTodaysPeriod_error_iff_empty (lib : Lib) (s : Service) (periods : List Period) :
    ((∃ e, s.findTodaysPeriod lib periods = .error e) ↔ periods = []) ∧
    (periods = [] → s.findTodaysPeriod lib periods = .error "no forecast periods found") ∧
    (periods ≠ [] → ∃ p, p ∈ periods ∧ s.findTodaysPeriod lib periods = .ok p) := by
  refine ⟨findTodaysPeriod_error_iff lib s periods, fun h => ?_, fun h => ?_⟩
  · rcases findTodaysPeriod_outcome lib s periods with ⟨_, he⟩ | ⟨h2, _⟩
    · exact he
    · exact absurd h h2
  · rcases findTodaysPeriod_outcome lib s periods with ⟨h2, _⟩ | ⟨_, hp⟩
    · exact absurd h2 h
    · exact hp

/-! ## The forecast service -/

/-- C9: when both upstream calls succeed and the period list is not empty,
`Service.GetForecast` returns a summary whose forecast is the short forecast of
the period `findTodaysPeriod` chooses and whose temperature is
`categorizeTemperature` of that period's temperature, hence one of "hot",
"cold", "moderate". -/
theorem GetForecast_summary (lib : Lib) (s : Service) (lat lng : Float64)
    (g : GridResponse) (f : ForecastResponse)
    (hg : s.client.GetGridCoordinates lat lng = .ok g)
    (hf : s.client.GetForecast g.Properties.GridID g.Properties.GridX g.Properties.GridY
      = .ok f)
    (hne : f.Properties.Periods ≠ []) :
    ∃ period resp,
      s.findTodaysPeriod lib f.Properties.Periods = .ok period ∧
      (s.GetForecast lib lat lng).1 = .ok resp ∧
      resp.Forecast = period.ShortForecast ∧
      resp.Temperature = s.categorizeTemperature period.Temperature ∧
      (resp.Temperature = "hot" ∨ resp.Temperature = "cold" ∨
        resp.Temperature = "moderate") := by
  obtain ⟨period, hp⟩ : ∃ period, s.findTodaysPeriod lib f.Properties.Periods = .ok period := by
    rcases findTodaysPeriod_outcome lib s f.Properties.Periods with ⟨h, _⟩ | ⟨_, p, _, hp⟩
    · exact absurd h hne
    · exact ⟨p, hp⟩
  refine ⟨period,
    { Forecast := period.ShortForecast
      Temperature := s.categorizeTemperature period.Temperature
      Location := lib.formatFixed4 lat ++ ", " ++ lib.formatFixed4 lng },
    hp, ?_, rfl, rfl, categorizeTemperature_mem s period.Temperature⟩
  simp only [Service.GetForecast, hg, hf, hp]

/-- Witness of C9: a client answering with a night period and then "Today". -/
theorem GetForecast_summary_witness :
    ∃ period resp,
      Service.findTodaysPeriod sampleLib ⟨sampleClient⟩
        [⟨"Tonight", 48, "Clear", false⟩, ⟨"Today", 85, "Sunny", true⟩] = .ok period ∧
      (Service.GetForecast sampleLib ⟨sampleClient⟩ (.finite (81 / 2)) (.finite (-297 / 4))).1
        = .ok resp ∧
      resp.Forecast = period.ShortForecast ∧
      resp.Temperature = Service.categorizeTemperature ⟨sampleClient⟩ period.Temperature ∧
      (resp.Temperature = "hot" ∨ resp.Temperature = "cold" ∨
        resp.Temperature = "moderate") :=
  GetForecast_summary sampleLib ⟨sampleClient⟩ (.finite (81 / 2)) (.finite (-297 / 4))
    ⟨⟨"OKX", 33, 35⟩⟩ ⟨⟨[⟨"Tonight", 48, "Clear", false⟩, ⟨"Today", 85, "Sunny", true⟩]⟩⟩
    rfl rfl (by simp)

/-- The service fails exactly on an upstream failure. -/
theorem GetForecast_error_iff (lib : Lib) (s : Service) (lat lng : Float64) :
    (∃ e, (s.GetForecast lib lat lng).1 = .error e) ↔ upstreamFailure s.client lat lng := by
  unfold upstreamFailure
  cases hg : s.client.GetGridCoordinates lat lng with
  | error e => simp [Service.GetForecast, hg]
  | ok g =>
    cases hf : s.client.GetForecast g.Properties.GridID g.Properties.GridX
        g.Properties.GridY with
    | error e => simp [Service.GetForecast, hg, hf]
    | ok f =>
      have h3 := findTodaysPeriod_error_iff lib s f.Properties.Periods
      cases hp : s.findTodaysPeriod lib f.Properties.Periods with
      | error e =>
        have : f.Properties.Periods = [] := h3.1 ⟨e, hp⟩
        simp [Service.GetForecast, hg, hf, hp]
        exact this
      | ok period =>
        have : f.Properties.Periods ≠ [] := fun h => by
          obtain ⟨e, he⟩ := h3.2 h
          rw [hp] at he
          cases he
        simp [Service.GetForecast, hg, hf, hp, this]

/-- C10: over the two client calls as given functions, `Service.GetForecast`
returns an error exactly when the grid lookup fails, or the forecast lookup
fails, or the period list is empty; when the grid lookup fails the only call
performed is the grid lookup; the grid lookup is always the first call, with
the coordinates given; and every forecast lookup performed has the gridId,
gridX and gridY the grid lookup returned. -/
theorem GetForecast_orchestration (lib : Lib) (s : Service) (lat lng : Float64) :
    ((∃ e, (s.GetForecast lib lat lng).1 = .error e) ↔
      ((∃ e, s.client.GetGridCoordinates lat lng = .error e) ∨
       (∃ g e, s.client.GetGridCoordinates lat lng = .ok g ∧
          s.client.GetForecast g.Properties.GridID g.Properties.GridX g.Properties.GridY
            = .error e) ∨
       (∃ g f, s.client.GetGridCoordinates lat lng = .ok g ∧
          s.client.GetForecast g.Properties.GridID g.Properties.GridX g.Properties.GridY
            = .ok f ∧ f.Properties.Periods = []))) ∧
    (∀ e, s.client.GetGridCoordinates lat lng = .error e →
      s.GetForecast lib lat lng =
        (.error ("failed to get grid coordinates: " ++ e),
          [ClientCall.GetGridCoordinates lat lng])) ∧
    (∀ g, s.client.GetGridCoordinates lat lng = .ok g →
      (s.GetForecast lib lat lng).2 =
        [ClientCall.GetGridCoordinates lat lng,
          ClientCall.GetForecast g.Properties.GridID g.Properties.GridX
            g.Properties.GridY]) ∧
    (∀ gridID gridX gridY,
      ClientCall.GetForecast gridID gridX gridY ∈ (s.GetForecast lib lat lng).2 →
      ∃ g, s.client.GetGridCoordinates lat lng = .ok g ∧
        gridID = g.Properties.GridID ∧ gridX = g.Properties.GridX ∧
        gridY = g.Properties.GridY) := by
  have hcalls : ∀ g, s.client.GetGridCoordinates lat lng = .ok g →
      (s.GetForecast lib lat lng).2 =
        [ClientCall.GetGridCoordinates lat lng,
          ClientCall.GetForecast g.Properties.GridID g.Properties.GridX
            g.Properties.GridY] := by
    intro g hg
    simp only [Service.GetForecast, hg]
    split
    · rfl
    · split <;> rfl
  refine ⟨GetForecast_error_iff lib s lat lng, ?_, hcalls, ?_⟩
  · intro e hg
    simp only [Service.GetForecast, hg]
  · intro gridID gridX gridY hmem
    cases hg : s.client.GetGridCoordinates lat lng with
    | error e =>
      simp [Service.GetForecast, hg] at hmem
    | ok g =>
      rw [hcalls g hg] at hmem
      simp only [List.mem_cons, ClientCall.GetForecast.injEq, List.mem_singleton,
        reduceCtorEq, false_or, List.not_mem_nil, or_false] at hmem
      exact ⟨g, rfl, hmem.1, hmem.2.1, hmem.2.2⟩

/-! ## The /weather handler: its branches -/

theorem QueryGet_of_missing (r : Request) (key : String)
    (h : ∀ kv ∈ r.Query, kv.1 ≠ key) : r.QueryGet key = "" := by
  have hnone : r.Query.find? (fun kv => kv.1 == key) = none := by
    rw [List.find?_eq_none]
    intro kv hkv
    simpa using h kv hkv
  simp only [Request.QueryGet, hnone]

theorem weatherHandler_other_method (lib : Lib) (s : Server) (r : Request)
    (hm : r.Method ≠ "GET") :
    s.weatherHandler lib r = http.Error "Method not allowed" 405 := by
  simp [Server.weatherHandler, http.MethodGet, http.StatusMethodNotAllowed, hm]

theorem weatherHandler_empty_param (lib : Lib) (s : Server) (r : Request)
    (hm : r.Method = "GET") (h : r.QueryGet "lat" = "" ∨ r.QueryGet "lng" = "") :
    s.weatherHandler lib r = http.Error "Missing required parameters: lat and lng" 400 := by
  simp only [Server.weatherHandler, http.MethodGet, http.StatusBadRequest, hm]
  rcases h with h | h <;> simp [h]

theorem weatherHandler_invalid_lat (lib : Lib) (s : Server) (r : Request)
    (hm : r.Method = "GET") (hlat : r.QueryGet "lat" ≠ "") (hlng : r.QueryGet "lng" ≠ "")
    (e : String) (he : lib.ParseFloat (r.QueryGet "lat") = .error e) :
    s.weatherHandler lib r = http.Error "Invalid latitude parameter" 400 := by
  simp [Server.weatherHandler, http.MethodGet, http.StatusBadRequest, hm, hlat, hlng, he]

theorem weatherHandler_invalid_lng (lib : Lib) (s : Server) (r : Request)
    (hm : r.Method = "GET") (hlat : r.QueryGet "lat" ≠ "") (hlng : r.QueryGet "lng" ≠ "")
    (lat : Float64) (hla : lib.ParseFloat (r.QueryGet "lat") = .ok lat)
    (e : String) (he : lib.ParseFloat (r.QueryGet "lng") = .error e) :
    s.weatherHandler lib r = http.Error "Invalid longitude parameter" 400 := by
  simp [Server.weatherHandler, http.MethodGet, http.StatusBadRequest, hm, hlat, hlng, hla, he]

theorem weatherHandler_range (lib : Lib) (s : Server) (r : Request)
    (hm : r.Method = "GET") (hlat : r.QueryGet "lat" ≠ "") (hlng : r.QueryGet "lng" ≠ "")
    (lat lng : Float64) (hla : lib.ParseFloat (r.QueryGet "lat") = .ok lat)
    (hln : lib.ParseFloat (r.QueryGet "lng") = .ok lng) (ht : rangeTest lat lng = true) :
    s.weatherHandler lib r = http.Error "Invalid coordinate ranges" 400 := by
  unfold rangeTest at ht
  simp only [Server.weatherHandler, http.MethodGet, http.StatusBadRequest, hm, hla, hln, ht]
  simp [hlat, hlng]

/-- Past the checks, the handler calls the service once, with the parsed
coordinates, and its response depends on the result only. -/
theorem weatherHandler_accepted (lib : Lib) (s : Server) (r : Request)
    (hm : r.Method = "GET") (hlat : r.QueryGet "lat" ≠ "") (hlng : r.QueryGet "lng" ≠ "")
    (lat lng : Float64) (hla : lib.ParseFloat (r.QueryGet "lat") = .ok lat)
    (hln : lib.ParseFloat (r.QueryGet "lng") = .ok lng) (ht : rangeTest lat lng = false) :
    (s.weatherHandler lib r).serviceCalls = [(lat, lng)] ∧
    (s.weatherHandler lib r).clientCalls = (s.weatherService.GetForecast lib lat lng).2 ∧
    (∀ e, (s.weatherService.GetForecast lib lat lng).1 = .error e →
      (s.weatherHandler lib r).Code = 500 ∧
      (s.weatherHandler lib r).Body = "Failed to get weather forecast\n" ∧
      (s.weatherHandler lib r).ContentType = "text/plain; charset=utf-8" ∧
      (s.weatherHandler lib r).logged = ["Error getting weather: " ++ e]) ∧
    (∀ resp, (s.weatherService.GetForecast lib lat lng).1 = .ok resp →
      (s.weatherHandler lib r).Code = 200 ∨ (s.weatherHandler lib r).Code = 500) := by
  unfold rangeTest at ht
  have hq : (r.QueryGet "lat" == "" || r.QueryGet "lng" == "") = false := by
    simp [hlat, hlng]
  simp only [Server.weatherHandler, http.MethodGet, hm, bne_self_eq_false, Bool.false_eq_true,
    if_false, hq, hla, hln, ht]
  rcases hres : s.weatherService.GetForecast lib lat lng with ⟨res, calls⟩
  cases res with
  | error err =>
    simp [http.Error, http.StatusInternalServerError]
  | ok weatherData =>
    cases henc : lib.jsonEncode weatherData with
    | error err => simp [henc, http.Error, http.StatusInternalServerError]
    | ok body => simp [henc, http.StatusOK]

/-- The range test against membership in the two closed intervals: they agree
on every pair without a NaN. -/
theorem rangeTest_iff (lat lng : Float64) (hlat : lat ≠ .nan) (hlng : lng ≠ .nan) :
    rangeTest lat lng = true ↔
      ¬ Float64.inClosed (-90) 90 lat ∨ ¬ Float64.inClosed (-180) 180 lng := by
  cases lat with
  | nan => exact absurd rfl hlat
  | posInf => cases lng <;> simp [rangeTest, Float64.lt, Float64.gt, Float64.inClosed]
  | negInf => cases lng <;> simp [rangeTest, Float64.lt, Float64.gt, Float64.inClosed]
  | finite a =>
    cases lng with
    | nan => exact absurd rfl hlng
    | posInf => simp [rangeTest, Float64.lt, Float64.gt, Float64.inClosed]
    | negInf => simp [rangeTest, Float64.lt, Float64.gt, Float64.inClosed]
    | finite b =>
      simp only [rangeTest, Float64.lt, Float64.gt, Float64.inClosed, Bool.or_eq_true,
        decide_eq_true_eq, not_and_or, not_le]
      tauto

/-! ## The /weather handler: method and parameters -/

/-- The decimal numbers of the specification on sample strings. -/
theorem specDecimalNumber_samples :
    specDecimalNumber "40.7128" = true ∧ specDecimalNumber "-74.0060" = true ∧
    specDecimalNumber "91" = true ∧ specDecimalNumber "1.5e-3" = true ∧
    specDecimalNumber ".5" = true ∧ specDecimalNumber "invalid" = false ∧
    specDecimalNumber "" = false ∧ specDecimalNumber "-" = false ∧
    specDecimalNumber "1e" = false ∧ specDecimalNumber "Inf" = false := by
  refine ⟨by decide, by decide, by decide, by decide, by decide, by decide, by decide,
    by decide, by decide, by decide⟩

/-- C7: a request whose method is not GET gets status 405, whatever its query,
and neither the forecast service nor the client is called. -/
theorem weatherHandler_method_not_allowed (lib : Lib) (s : Server) (r : Request)
    (hm : r.Method ≠ "GET") :
    (s.weatherHandler lib r).Code = 405 ∧
    (s.weatherHandler lib r).serviceCalls = [] ∧
    (s.weatherHandler lib r).clientCalls = [] := by
  rw [weatherHandler_other_method lib s r hm]
  exact ⟨rfl, rfl, rfl⟩

/-- Witness of C7: a POST with valid coordinates. -/
theorem weatherHandler_method_not_allowed_witness :
    (Server.weatherHandler sampleLib ⟨⟨sampleClient⟩⟩
        ⟨"POST", [("lat", "40.5"), ("lng", "-74.25")]⟩).Code = 405 ∧
    (Server.weatherHandler sampleLib ⟨⟨sampleClient⟩⟩
        ⟨"POST", [("lat", "40.5"), ("lng", "-74.25")]⟩).serviceCalls = [] ∧
    (Server.weatherHandler sampleLib ⟨⟨sampleClient⟩⟩
        ⟨"POST", [("lat", "40.5"), ("lng", "-74.25")]⟩).clientCalls = [] :=
  weatherHandler_method_not_allowed sampleLib ⟨⟨sampleClient⟩⟩
    ⟨"POST", [("lat", "40.5"), ("lng", "-74.25")]⟩ (by decide)

/-- C8: a GET request whose query has no lat parameter, or no lng parameter,
gets status 400 whatever the other parameter is, and neither the forecast
service nor the client is called. -/
theorem weatherHandler_missing_param (lib : Lib) (s : Server) (r : Request)
    (hm : r.Method = "GET")
    (h : (∀ kv ∈ r.Query, kv.1 ≠ "lat") ∨ (∀ kv ∈ r.Query, kv.1 ≠ "lng")) :
    (s.weatherHandler lib r).Code = 400 ∧
    (s.weatherHandler lib r).serviceCalls = [] ∧
    (s.weatherHandler lib r).clientCalls = [] := by
  have hempty : r.QueryGet "lat" = "" ∨ r.QueryGet "lng" = "" :=
    h.imp (QueryGet_of_missing r "lat") (QueryGet_of_missing r "lng")
  rw [weatherHandler_empty_param lib s r hm hempty]
  exact ⟨rfl, rfl, rfl⟩

/-- Witness of C8: a GET with a valid latitude and no longitude. -/
theorem weatherHandler_missing_param_witness :
    (Server.weatherHandler sampleLib ⟨⟨sampleClient⟩⟩ ⟨"GET", [("lat", "40.5")]⟩).Code = 400 ∧
    (Server.weatherHandler sampleLib ⟨⟨sampleClient⟩⟩
        ⟨"GET", [("lat", "40.5")]⟩).serviceCalls = [] ∧
    (Server.weatherHandler sampleLib ⟨⟨sampleClient⟩⟩
        ⟨"GET", [("lat", "40.5")]⟩).clientCalls = [] :=
  weatherHandler_missing_param sampleLib ⟨⟨sampleClient⟩⟩ ⟨"GET", [("lat", "40.5")]⟩ rfl
    (Or.inr (by decide))

/-- C5, as the code has it: on a GET request with lat and lng both present and
non-empty, if `strconv.ParseFloat` returns an error for the lat string or for
the lng string, the handler replies 400 and neither the forecast service nor
the client is called. -/
theorem weatherHandler_parse_error (lib : Lib) (s : Server) (r : Request)
    (hm : r.Method = "GET") (hlat : r.QueryGet "lat" ≠ "") (hlng : r.QueryGet "lng" ≠ "")
    (h : (∃ e, lib.ParseFloat (r.QueryGet "lat") = .error e) ∨
      (∃ e, lib.ParseFloat (r.QueryGet "lng") = .error e)) :
    (s.weatherHandler lib r).Code = 400 ∧
    (s.weatherHandler lib r).serviceCalls = [] ∧
    (s.weatherHandler lib r).clientCalls = [] := by
  cases hla : lib.ParseFloat (r.QueryGet "lat") with
  | error e =>
    rw [weatherHandler_invalid_lat lib s r hm hlat hlng e hla]
    exact ⟨rfl, rfl, rfl⟩
  | ok lat =>
    rcases h with ⟨e, he⟩ | ⟨e, he⟩
    · rw [hla] at he
      cases he
    · rw [weatherHandler_invalid_lng lib s r hm hlat hlng lat hla e he]
      exact ⟨rfl, rfl, rfl⟩

/-- Witness of C5 as the code has it: the longitude "invalid". -/
theorem weatherHandler_parse_error_witness :
    (Server.weatherHandler sampleLib ⟨⟨sampleClient⟩⟩
        ⟨"GET", [("lat", "40.5"), ("lng", "invalid")]⟩).Code = 400 ∧
    (Server.weatherHandler sampleLib ⟨⟨sampleClient⟩⟩
        ⟨"GET", [("lat", "40.5"), ("lng", "invalid")]⟩).serviceCalls = [] ∧
    (Server.weatherHandler sampleLib ⟨⟨sampleClient⟩⟩
        ⟨"GET", [("lat", "40.5"), ("lng", "invalid")]⟩).clientCalls = [] :=
  weatherHandler_parse_error sampleLib ⟨⟨sampleClient⟩⟩
    ⟨"GET", [("lat", "40.5"), ("lng", "invalid")]⟩ rfl (by decide) (by decide)
    (Or.inr ⟨_, rfl⟩)

/-- C5 as stated fails: "0x1p4" and "NaN" are not decimal numbers, yet
`strconv.ParseFloat` accepts both; on GET /weather?lat=0x1p4&lng=0 and on
GET /weather?lat=0&lng=NaN the handler calls the forecast service, and with a
failing points lookup it replies 500, not 400. -/
theorem weatherHandler_non_decimal_reaches_service :
    specDecimalNumber "0x1p4" = false ∧ specDecimalNumber "NaN" = false ∧
    specDecimalNumber "0" = true ∧
    (Server.weatherHandler sampleLib ⟨⟨failingGridClient⟩⟩
        ⟨"GET", [("lat", "0x1p4"), ("lng", "0")]⟩).Code = 500 ∧
    (Server.weatherHandler sampleLib ⟨⟨failingGridClient⟩⟩
        ⟨"GET", [("lat", "0x1p4"), ("lng", "0")]⟩).serviceCalls
      = [(.finite 16, .finite 0)] ∧
    (Server.weatherHandler sampleLib ⟨⟨failingGridClient⟩⟩
        ⟨"GET", [("lat", "0"), ("lng", "NaN")]⟩).Code = 500 ∧
    (Server.weatherHandler sampleLib ⟨⟨failingGridClient⟩⟩
        ⟨"GET", [("lat", "0"), ("lng", "NaN")]⟩).serviceCalls
      = [(.finite 0, .nan)] := by
  refine ⟨by decide, by decide, by decide, by decide, by decide, by decide, by decide⟩

/-! ## The /weather handler: coordinate ranges -/

/-- Out-of-range coordinates other than NaN are refused: on a GET request whose
lat and lng parse to values neither of which is NaN, a latitude outside
[-90, 90] or a longitude outside [-180, 180] gets 400 and no service call. -/
theorem weatherHandler_out_of_range (lib : Lib) (s : Server) (r : Request)
    (hm : r.Method = "GET") (lat lng : Float64)
    (hla : lib.ParseFloat (r.QueryGet "lat") = .ok lat)
    (hln : lib.ParseFloat (r.QueryGet "lng") = .ok lng)
    (hlat : lat ≠ .nan) (hlng : lng ≠ .nan)
    (h : ¬ Float64.inClosed (-90) 90 lat ∨ ¬ Float64.inClosed (-180) 180 lng) :
    (s.weatherHandler lib r).Code = 400 ∧
    (s.weatherHandler lib r).serviceCalls = [] ∧
    (s.weatherHandler lib r).clientCalls = [] := by
  by_cases he : r.QueryGet "lat" = "" ∨ r.QueryGet "lng" = ""
  · rw [weatherHandler_empty_param lib s r hm he]
    exact ⟨rfl, rfl, rfl⟩
  · rw [not_or] at he
    rw [weatherHandler_range lib s r hm he.1 he.2 lat lng hla hln
      ((rangeTest_iff lat lng hlat hlng).2 h)]
    exact ⟨rfl, rfl, rfl⟩

/-- An instance of the lemma above: the latitude "Inf". -/
theorem weatherHandler_out_of_range_inf :
    (Server.weatherHandler sampleLib ⟨⟨sampleClient⟩⟩
        ⟨"GET", [("lat", "Inf"), ("lng", "0")]⟩).Code = 400 ∧
    (Server.weatherHandler sampleLib ⟨⟨sampleClient⟩⟩
        ⟨"GET", [("lat", "Inf"), ("lng", "0")]⟩).serviceCalls = [] ∧
    (Server.weatherHandler sampleLib ⟨⟨sampleClient⟩⟩
        ⟨"GET", [("lat", "Inf"), ("lng", "0")]⟩).clientCalls = [] :=
  weatherHandler_out_of_range sampleLib ⟨⟨sampleClient⟩⟩ ⟨"GET", [("lat", "Inf"), ("lng", "0")]⟩
    rfl .posInf (.finite 0) rfl rfl (by decide) (by decide) (Or.inl (by decide))

/-- C4 at the latitude NaN: `strconv.ParseFloat` gives NaN for "NaN" without
error, NaN is in no interval, and on GET /weather?lat=NaN&lng=0 the handler
calls the forecast service with the latitude NaN and does not reply 400,
whatever the service. -/
theorem weatherHandler_nan_latitude (s : Server) :
    sampleLib.ParseFloat "NaN" = .ok .nan ∧ sampleLib.ParseFloat "0" = .ok (.finite 0) ∧
    ¬ Float64.inClosed (-90) 90 .nan ∧
    (s.weatherHandler sampleLib ⟨"GET", [("lat", "NaN"), ("lng", "0")]⟩).serviceCalls
      = [(.nan, .finite 0)] ∧
    (s.weatherHandler sampleLib ⟨"GET", [("lat", "NaN"), ("lng", "0")]⟩).Code ≠ 400 := by
  have hacc := weatherHandler_accepted sampleLib s ⟨"GET", [("lat", "NaN"), ("lng", "0")]⟩
    rfl (by decide) (by decide) .nan (.finite 0) rfl rfl (by decide)
  refine ⟨rfl, rfl, by decide, hacc.1, ?_⟩
  cases hres : (s.weatherService.GetForecast sampleLib .nan (.finite 0)).1 with
  | error e =>
    rw [(hacc.2.2.1 e hres).1]
    decide
  | ok resp =>
    rcases hacc.2.2.2 resp hres with h | h <;> rw [h] <;> decide

/-! ## The /weather handler: service failures -/

/-- One run: when the handler has called the service at coordinates where the
upstream fails, the reply is 500 with the generic body. -/
theorem weatherHandler_failure_reply (lib : Lib) (s : Server) (r : Request)
    (lat lng : Float64) (hc : (lat, lng) ∈ (s.weatherHandler lib r).serviceCalls)
    (hf : upstreamFailure s.weatherService.client lat lng) :
    (s.weatherHandler lib r).Code = 500 ∧
    (s.weatherHandler lib r).Body = "Failed to get weather forecast\n" ∧
    (s.weatherHandler lib r).ContentType = "text/plain; charset=utf-8" := by
  by_cases hm : r.Method = "GET"
  swap
  · rw [weatherHandler_other_method lib s r hm] at hc
    simp [http.Error] at hc
  by_cases he : r.QueryGet "lat" = "" ∨ r.QueryGet "lng" = ""
  · rw [weatherHandler_empty_param lib s r hm he] at hc
    simp [http.Error] at hc
  rw [not_or] at he
  cases hla : lib.ParseFloat (r.QueryGet "lat") with
  | error e =>
    rw [weatherHandler_invalid_lat lib s r hm he.1 he.2 e hla] at hc
    simp [http.Error] at hc
  | ok la =>
    cases hln : lib.ParseFloat (r.QueryGet "lng") with
    | error e =>
      rw [weatherHandler_invalid_lng lib s r hm he.1 he.2 la hla e hln] at hc
      simp [http.Error] at hc
    | ok ln =>
      cases ht : rangeTest la ln with
      | true =>
        rw [weatherHandler_range lib s r hm he.1 he.2 la ln hla hln ht] at hc
        simp [http.Error] at hc
      | false =>
        have hacc := weatherHandler_accepted lib s r hm he.1 he.2 la ln hla hln ht
        rw [hacc.1] at hc
        simp only [List.mem_singleton, Prod.mk.injEq] at hc
        obtain ⟨rfl, rfl⟩ := hc
        obtain ⟨e, herr⟩ := (GetForecast_error_iff lib s.weatherService lat lng).2 hf
        obtain ⟨h1, h2, h3, _⟩ := hacc.2.2.1 e herr
        exact ⟨h1, h2, h3⟩

/-- C6: whenever the handler has called the forecast service and the upstream
failed (grid lookup error, forecast lookup error or empty period list), the
reply is 500 with the body "Failed to get weather forecast"; for every two such
runs, whatever the two errors, status, body and content type are the same. -/
theorem weatherHandler_failure_generic (lib₁ lib₂ : Lib) (s₁ s₂ : Server) (r₁ r₂ : Request)
    (lat₁ lng₁ lat₂ lng₂ : Float64)
    (hc₁ : (lat₁, lng₁) ∈ (s₁.weatherHandler lib₁ r₁).serviceCalls)
    (hf₁ : upstreamFailure s₁.weatherService.client lat₁ lng₁)
    (hc₂ : (lat₂, lng₂) ∈ (s₂.weatherHandler lib₂ r₂).serviceCalls)
    (hf₂ : upstreamFailure s₂.weatherService.client lat₂ lng₂) :
    (s₁.weatherHandler lib₁ r₁).Code = 500 ∧
    (s₁.weatherHandler lib₁ r₁).Body = "Failed to get weather forecast\n" ∧
    (s₁.weatherHandler lib₁ r₁).Code = (s₂.weatherHandler lib₂ r₂).Code ∧
    (s₁.weatherHandler lib₁ r₁).Body = (s₂.weatherHandler lib₂ r₂).Body ∧
    (s₁.weatherHandler lib₁ r₁).ContentType = (s₂.weatherHandler lib₂ r₂).ContentType := by
  obtain ⟨a1, a2, a3⟩ := weatherHandler_failure_reply lib₁ s₁ r₁ lat₁ lng₁ hc₁ hf₁
  obtain ⟨b1, b2, b3⟩ := weatherHandler_failure_reply lib₂ s₂ r₂ lat₂ lng₂ hc₂ hf₂
  exact ⟨a1, a2, a1.trans b1.symm, a2.trans b2.symm, a3.trans b3.symm⟩

/-- Witness of C6: a failing points lookup and an empty forecast. -/
theorem weatherHandler_failure_generic_witness :
    (Server.weatherHandler sampleLib ⟨⟨failingGridClient⟩⟩
        ⟨"GET", [("lat", "0x1p4"), ("lng", "91")]⟩).Code = 500 ∧
    (Server.weatherHandler sampleLib ⟨⟨failingGridClient⟩⟩
        ⟨"GET", [("lat", "0x1p4"), ("lng", "91")]⟩).Body
      = "Failed to get weather forecast\n" ∧
    (Server.weatherHandler sampleLib ⟨⟨failingGridClient⟩⟩
        ⟨"GET", [("lat", "0x1p4"), ("lng", "91")]⟩).Code
      = (Server.weatherHandler sampleLib ⟨⟨emptyForecastClient⟩⟩
        ⟨"GET", [("lat", "0"), ("lng", "0")]⟩).Code ∧
    (Server.weatherHandler sampleLib ⟨⟨failingGridClient⟩⟩
        ⟨"GET", [("lat", "0x1p4"), ("lng", "91")]⟩).Body
      = (Server.weatherHandler sampleLib ⟨⟨emptyForecastClient⟩⟩
        ⟨"GET", [("lat", "0"), ("lng", "0")]⟩).Body ∧
    (Server.weatherHandler sampleLib ⟨⟨failingGridClient⟩⟩
        ⟨"GET", [("lat", "0x1p4"), ("lng", "91")]⟩).ContentType
      = (Server.weatherHandler sampleLib ⟨⟨emptyForecastClient⟩⟩
        ⟨"GET", [("lat", "0"), ("lng", "0")]⟩).ContentType :=
  weatherHandler_failure_generic sampleLib sampleLib ⟨⟨failingGridClient⟩⟩
    ⟨⟨emptyForecastClient⟩⟩ ⟨"GET", [("lat", "0x1p4"), ("lng", "91")]⟩
    ⟨"GET", [("lat", "0"), ("lng", "0")]⟩ (.finite 16) (.finite 91)
    (.finite 0) (.finite 0) (by decide) (Or.inl ⟨_, rfl⟩) (by decide)
    (Or.inr (Or.inr ⟨_, _, rfl, rfl, rfl⟩))

end WeatherService
